import Mathlib

/-!
Verification development for the snow-alert core: the table extractor
(`parse_snow_html` in `src/fetch.py`) and the threshold evaluator
(`evaluate_thresholds` in `src/main.py`).

Modelling conventions:
* Python floats are modelled by `PFloat`: either the NaN sentinel or an exact
  rational value.  All values appearing in the claims are exact decimals, for
  which rational arithmetic agrees with IEEE double arithmetic (in particular
  `3.81 / 2.54` is exactly `1.5` in doubles as well).
* `float(...)` applied to a decimal string is modelled by `pyFloat`, covering
  finite decimal literals with optional sign, fraction and exponent.
* Python's `f"{v:.2f}"` formatting is modelled by `fmt2` (round half to even
  at two decimal places, with a sign for negative inputs).
* The BeautifulSoup parse tree of a document is modelled by its table
  structure: a list of tables, each a list of rows, each a list of cells
  carrying a tag kind (`th` or `td`) and the cell text.
-/

/-- A Python float value: NaN or a finite value (modelled as a rational). -/
inductive PFloat where
  | nan : PFloat
  | val : ℚ → PFloat
deriving DecidableEq, Repr

/-- Model of `v != v` in Python: true exactly for NaN. -/
def PFloat.isNaN : PFloat → Bool
  | .nan => true
  | .val _ => false

/-- The five look-back windows, keyed as in `evaluate_thresholds`. -/
inductive Window where
  | h6 | h12 | h24 | h48 | w1
deriving DecidableEq, Repr

/-- The label mapping `windows` of `evaluate_thresholds`. -/
def Window.label : Window → String
  | .h6 => "6h"
  | .h12 => "12h"
  | .h24 => "24h"
  | .h48 => "48h"
  | .w1 => "1w"

/-- The fixed iteration order `["h6", "h12", "h24", "h48", "w1"]`. -/
def windowOrder : List Window := [.h6, .h12, .h24, .h48, .w1]

/-- Round `q * 100` to the nearest integer, ties to even (the rounding of
Python's `%.2f` on exactly representable values). -/
def round2 (q : ℚ) : Int :=
  let x : ℚ := q * 100
  let f : Int := ⌊x⌋
  let frac : ℚ := x - (f : ℚ)
  if frac < 1/2 then f
  else if 1/2 < frac then f + 1
  else if f % 2 = 0 then f else f + 1

/-- Two-digit zero-padded rendering of `k < 100`. -/
def pad2 (k : Nat) : String :=
  if k < 10 then "0" ++ toString k else toString k

/-- Model of Python's `f"{q:.2f}"` on a finite value. -/
def fmt2 (q : ℚ) : String :=
  let n : Int := round2 q
  let m : Nat := n.natAbs
  (if q < 0 then "-" else "") ++ toString (m / 100) ++ "." ++ pad2 (m % 100)

/-- A raw Python value found in the `swe_change_cm` config mapping:
`numV q` is a value on which `float(...)` succeeds with (finite) result `q`,
`nanV` is a NaN (the `.get` default, or a YAML NaN), and `badV` is a
malformed value on which `float(...)` raises. -/
inductive PyVal where
  | nanV : PyVal
  | numV : ℚ → PyVal
  | badV : PyVal
deriving DecidableEq, Repr

/-- Model of `inches_from_cm` (src/main.py:37): `float(cm) / 2.54`, with any exception
caught and turned into NaN.  `NaN / 2.54 = NaN`. -/
def inches_from_cm (cm : PyVal) : PFloat :=
  match cm with
  | .badV => .nan
  | .nanV => .nan
  | .numV q => .val (q / (254/100))

/-- Model of `meets` (src/main.py:68): NaN-safe comparison returning the trigger flag
and the formatted comparison message. -/
def meets (v t : PFloat) : Bool × String :=
  if v.isNaN || t.isNaN then (false, "")
  else
    match v, t with
    | .val a, .val b => (decide (b ≤ a), fmt2 a ++ " in >= " ++ fmt2 b ++ " in")
    | _, _ => (false, "")

/-- One iteration of the reasons loop (src/main.py:75-78): the reason entry
contributed by window `w`, if it triggers. -/
def reasonFor (vals th : Window → PFloat) (w : Window) : Option String :=
  let r := meets (vals w) (th w)
  if r.1 then some (w.label ++ " SWE change " ++ r.2) else none

/-- The decision record returned by `evaluate_thresholds`. -/
structure Decision where
  alert : Bool
  reasons : List String
  metrics : Window → PFloat
  thresholds : Window → PFloat

/-- Model of `evaluate_thresholds` (src/main.py:44): per-window threshold conversion,
per-window NaN-safe comparison in the fixed window order, and the final
decision record.  `cfg w` is the `swe_change_cm` config entry for window `w`
(`none` when the key is absent, so `.get` falls back to NaN); `parsed w` is
the parsed-reading entry (`none` when the key is absent). -/
def evaluate_thresholds (cfg : Window → Option PyVal) (parsed : Window → Option PFloat) :
    Decision :=
  let th : Window → PFloat := fun w => inches_from_cm ((cfg w).getD .nanV)
  let vals : Window → PFloat := fun w => (parsed w).getD .nan
  let reasons : List String := windowOrder.filterMap (reasonFor vals th)
  { alert := decide (0 < reasons.length)
    reasons := reasons
    metrics := vals
    thresholds := th }

/-! ## The table extractor (`parse_snow_html`, src/fetch.py) -/

/-- A table cell of the parsed markup tree: its tag kind (`th` or `td`) and
its text content (as returned by `get_text` before stripping). -/
structure Cell where
  isTh : Bool
  text : String
deriving DecidableEq, Repr

/-- A `<tr>` row: its cells in document order. -/
abbrev Row := List Cell

/-- A `<table>`: its rows in document order. -/
abbrev Table := List Row

/-- Test `prefixCheck need hay`: `need` is a prefix of `hay`. -/
def prefixCheck : List Char → List Char → Bool
  | [], _ => true
  | _ :: _, [] => false
  | a :: as, b :: bs => a == b && prefixCheck as bs

/-- Test `infixCheck need hay`: `need` occurs contiguously inside `hay`. -/
def infixCheck (need : List Char) : List Char → Bool
  | [] => need.isEmpty
  | c :: t => prefixCheck need (c :: t) || infixCheck need t

/-- Substring test, modelling Python's `needle in hay`. -/
def strContains (hay need : String) : Bool :=
  infixCheck need.data hay.data

/-- Model of `txt.replace(",", "")`: remove every comma. -/
def removeCommas (s : String) : String :=
  String.mk (s.data.filter (fun c => c != ','))

/-- The table-selection test (src/fetch.py:58-61): join the stripped text of
all `td`/`th` cells of the table with spaces, lowercase it, and require the
phrase "swe change" together with "6 hour" or "12 hour". -/
def tableMatches (t : Table) : Bool :=
  let headerText := (String.intercalate " " (t.flatten.map (fun c => c.text.trim))).toLower
  strContains headerText "swe change" &&
    (strContains headerText "6 hour" || strContains headerText "12 hour")

/-- The data-row test (src/fetch.py:78-81): among the row's `td` cells, some
stripped text is non-empty and some stripped text contains a digit. -/
def rowHasData (r : Row) : Bool :=
  let texts := (r.filter (fun c => !c.isTh)).map (fun c => c.text.trim)
  texts.any (fun s => s != "") && texts.any (fun s => s.any Char.isDigit)

/-- Numeric value of a list of decimal digit characters. -/
def digitsVal (l : List Char) : Nat :=
  l.foldl (fun acc c => acc * 10 + (c.toNat - 48)) 0

/-- Exponent part of a float literal: optional sign then a non-empty digit
run, which must exhaust the input. -/
def expPart (sgn mant : ℚ) (t : List Char) : Option ℚ :=
  let p : Bool × List Char :=
    match t with
    | '+' :: u => (true, u)
    | '-' :: u => (false, u)
    | _ => (true, t)
  let eds := p.2.takeWhile Char.isDigit
  let rest := p.2.dropWhile Char.isDigit
  if eds.isEmpty || !rest.isEmpty then none
  else if p.1 then some (sgn * (mant * (10:ℚ) ^ digitsVal eds))
  else some (sgn * (mant / (10:ℚ) ^ digitsVal eds))

/-- Model of Python's `float(txt)` on an already-stripped string: an optional
sign, then digits with an optional fractional part (at least one digit in
total), then an optional exponent.  `none` models `float` raising
`ValueError`. -/
def pyFloat (s : String) : Option ℚ :=
  let p : ℚ × List Char :=
    match s.data with
    | '+' :: t => (1, t)
    | '-' :: t => (-1, t)
    | cs => (1, cs)
  let intds := p.2.takeWhile Char.isDigit
  let rest1 := p.2.dropWhile Char.isDigit
  let q : List Char × List Char :=
    match rest1 with
    | '.' :: t => (t.takeWhile Char.isDigit, t.dropWhile Char.isDigit)
    | _ => ([], rest1)
  if intds.isEmpty && q.1.isEmpty then none
  else
    let mant : ℚ := (digitsVal intds : ℚ) + (digitsVal q.1 : ℚ) / (10:ℚ) ^ q.1.length
    match q.2 with
    | [] => some (p.1 * mant)
    | 'e' :: t => expPart p.1 mant t
    | 'E' :: t => expPart p.1 mant t
    | _ => none

/-- Model of `to_float` (src/fetch.py:95-103): strip the cell text, remove commas,
parse as a float; a parse failure yields NaN for that one field. -/
def to_float (c : Cell) : PFloat :=
  match pyFloat (removeCommas c.text.trim) with
  | some q => .val q
  | none => .nan

/-- The four documented failure kinds of the extractor. -/
inductive ParseErr where
  | EmptyInput | TableNotFound | NoDataRow | InsufficientCells
deriving DecidableEq, Repr

/-- The extracted reading: exactly five SWE-change fields, one per window. -/
structure Reading where
  swe_change_6h_in : PFloat
  swe_change_12h_in : PFloat
  swe_change_24h_in : PFloat
  swe_change_48h_in : PFloat
  swe_change_1w_in : PFloat
deriving DecidableEq, Repr

/-- Cell stage (src/fetch.py:89-114): the selected data row must expose at
least 5 `td` cells; the first five are parsed (failures become NaN) and are
mapped left-to-right to the windows 6h, 12h, 24h, 48h, 1w. -/
def extractRow (r : Row) : Except ParseErr Reading :=
  let tds := r.filter (fun c => !c.isTh)
  if h : tds.length < 5 then .error .InsufficientCells
  else .ok {
    swe_change_6h_in := to_float (tds.get ⟨0, by omega⟩)
    swe_change_12h_in := to_float (tds.get ⟨1, by omega⟩)
    swe_change_24h_in := to_float (tds.get ⟨2, by omega⟩)
    swe_change_48h_in := to_float (tds.get ⟨3, by omega⟩)
    swe_change_1w_in := to_float (tds.get ⟨4, by omega⟩) }

/-- Row stage (src/fetch.py:69-93): require at least two rows, skip the
first (assumed header), take the first remaining row passing `rowHasData`,
else fail with `NoDataRow`. -/
def extractFromTable (t : Table) : Except ParseErr Reading :=
  if t.length < 2 then .error .NoDataRow
  else
    match (t.drop 1).find? rowHasData with
    | none => .error .NoDataRow
    | some r => extractRow r

/-- Table stage (src/fetch.py:54-67): the first table passing `tableMatches`
is selected; if none matches, fail with `TableNotFound`. -/
def extractFromTables (tables : List Table) : Except ParseErr Reading :=
  match tables.find? tableMatches with
  | none => .error .TableNotFound
  | some t => extractFromTable t

/-- The raw argument passed to `parse_snow_html`: either not a string at
all, or a string. -/
inductive RawInput where
  | nonString : RawInput
  | text : String → RawInput

/-- Model of `parse_snow_html` (src/fetch.py:33): reject empty or non-string input,
otherwise run the three-stage extraction on the parsed table structure
`doc` of the document (the tables BeautifulSoup finds, in document order,
each given as its rows of tagged cells). -/
def parse_snow_html (input : RawInput) (doc : List Table) : Except ParseErr Reading :=
  match input with
  | .nonString => .error .EmptyInput
  | .text s => if s = "" then .error .EmptyInput else extractFromTables doc

deriving instance DecidableEq for Except

set_option maxRecDepth 4000

def cTh (s : String) : Cell := ⟨true, s⟩
def cTd (s : String) : Cell := ⟨false, s⟩

/-! ## Spec-side definitions and fixtures -/

/-- The spec's description of a window's contribution to `reasons`: an entry
exactly when both the reading value and the converted threshold are non-NaN
and the value meets the threshold inclusively, with the documented string
shape. -/
def specReason (v t : PFloat) (lbl : String) : Option String :=
  match v, t with
  | .val a, .val b =>
    if a ≥ b then
      some (lbl ++ " SWE change " ++ fmt2 a ++ " in >= " ++ fmt2 b ++ " in")
    else none
  | _, _ => none

/-- A reason string concerns window `w` when it starts with the window's
label followed by " SWE change ". -/
def mentionsWindow (w : Window) (s : String) : Bool :=
  prefixCheck (w.label ++ " SWE change ").data s.data

/-- Fixture for the inclusive-comparison claim: only `h24` configured, at
3.81 cm. -/
def cfg8 : Window → Option PyVal :=
  fun w => match w with | .h24 => some (.numV (381/100)) | _ => none

/-- Fixture reading: only the 24h value present, exactly 1.50. -/
def parsed8 : Window → Option PFloat :=
  fun w => match w with | .h24 => some (.val (3/2)) | _ => none

/-- Fixture config: every window configured at 0 cm. -/
def cfg10 : Window → Option PyVal := fun _ => some (.numV 0)

/-- Fixture reading with the `h6` entry missing altogether. -/
def parsed10 : Window → Option PFloat :=
  fun w => match w with | .h6 => none | _ => some (.val 1)

/-! ## Helper lemmas -/

theorem reasonFor_eq_specReason (vals th : Window → PFloat) (w : Window) :
    reasonFor vals th w = specReason (vals w) (th w) w.label := by
  unfold reasonFor meets specReason
  cases vals w with
  | nan => simp [PFloat.isNaN]
  | val a =>
    cases th w with
    | nan => simp [PFloat.isNaN]
    | val b =>
      simp only [PFloat.isNaN, Bool.or_false, ge_iff_le, decide_eq_true_eq]
      by_cases hba : b ≤ a <;> simp [hba, String.append_assoc]

theorem reasonFor_eq_none (vals th : Window → PFloat) (w : Window)
    (h : (vals w).isNaN = true ∨ (th w).isNaN = true) :
    reasonFor vals th w = none := by
  unfold reasonFor meets
  rcases h with h | h <;> simp [h]

theorem mentionsWindow_ne (w v : Window) (h : w ≠ v) (msg : String) :
    mentionsWindow w (Window.label v ++ " SWE change " ++ msg) = false := by
  cases w <;> cases v <;> first
    | exact absurd rfl h
    | simp [mentionsWindow, Window.label, prefixCheck]

theorem not_mentioned_of_reasonFor_none (vals th : Window → PFloat) (w : Window)
    (h : reasonFor vals th w = none) :
    ∀ s ∈ windowOrder.filterMap (reasonFor vals th), mentionsWindow w s = false := by
  intro s hs
  rw [List.mem_filterMap] at hs
  obtain ⟨v, _, hr⟩ := hs
  by_cases hvw : v = w
  · subst hvw; rw [h] at hr; cases hr
  · unfold reasonFor at hr
    by_cases hc : (meets (vals v) (th v)).1 = true
    · rw [if_pos hc] at hr
      obtain rfl := Option.some.inj hr
      exact mentionsWindow_ne w v (fun he => hvw he.symm) _
    · rw [if_neg hc] at hr; cases hr

/-! ## Claims about the threshold evaluator -/

/-- C1: for every reading and threshold configuration, the `reasons` list of
the decision is exactly the window-ordered list of entries described by the
spec: an entry for window `w` iff both the reading value and the converted
threshold are non-NaN and the value is `>=` the threshold (inclusive), with
the string "<label> SWE change <v:.2f> in >= <t:.2f> in"; NaN on either side
yields no entry. -/
theorem evaluate_reasons_spec : ∀ (cfg : Window → Option PyVal) (parsed : Window → Option PFloat),
    (evaluate_thresholds cfg parsed).reasons =
      windowOrder.filterMap (fun w =>
        specReason ((parsed w).getD .nan) (inches_from_cm ((cfg w).getD .nanV)) w.label) := by
  intro cfg parsed
  exact List.filterMap_congr (fun w _ => reasonFor_eq_specReason _ _ w)

/-- C2: the decision's `alert` field is true iff its `reasons` list is
non-empty. -/
theorem evaluate_alert_iff : ∀ (cfg : Window → Option PyVal) (parsed : Window → Option PFloat),
    (evaluate_thresholds cfg parsed).alert = true ↔
      (evaluate_thresholds cfg parsed).reasons ≠ [] := by
  intro cfg parsed
  have h : (evaluate_thresholds cfg parsed).alert
      = decide (0 < (evaluate_thresholds cfg parsed).reasons.length) := rfl
  rw [h, decide_eq_true_eq]
  exact List.length_pos

/-- C9: regardless of the trigger outcome, the decision's `metrics` field
holds all five reading values keyed by window (missing entries as NaN), and
its `thresholds` field holds the five converted threshold values keyed by
window. -/
theorem evaluate_metrics_thresholds :
    ∀ (cfg : Window → Option PyVal) (parsed : Window → Option PFloat) (w : Window),
      (evaluate_thresholds cfg parsed).metrics w = (parsed w).getD .nan
      ∧ (evaluate_thresholds cfg parsed).thresholds w
          = inches_from_cm ((cfg w).getD .nanV) :=
  fun _ _ _ => ⟨rfl, rfl⟩

theorem evaluate_reasons_def (cfg : Window → Option PyVal) (parsed : Window → Option PFloat) :
    (evaluate_thresholds cfg parsed).reasons =
      windowOrder.filterMap
        (reasonFor (fun w => (parsed w).getD .nan)
          (fun w => inches_from_cm ((cfg w).getD .nanV))) := rfl

/-- C3: the evaluator is total (it is a Lean function into `Decision`);
an absent config entry and a malformed one both degrade to a NaN threshold,
a configured value converts by dividing by 2.54, and a window whose
threshold is NaN never appears in `reasons`, whatever its reading value. -/
theorem evaluate_degrades_to_nan :
    ∀ (cfg : Window → Option PyVal) (parsed : Window → Option PFloat) (w : Window),
      (cfg w = none → (evaluate_thresholds cfg parsed).thresholds w = .nan)
      ∧ (cfg w = some .badV → (evaluate_thresholds cfg parsed).thresholds w = .nan)
      ∧ (cfg w = some .nanV → (evaluate_thresholds cfg parsed).thresholds w = .nan)
      ∧ (∀ q, cfg w = some (.numV q) →
          (evaluate_thresholds cfg parsed).thresholds w = .val (q / (254/100)))
      ∧ ((evaluate_thresholds cfg parsed).thresholds w = .nan →
          ∀ s ∈ (evaluate_thresholds cfg parsed).reasons, mentionsWindow w s = false) := by
  intro cfg parsed w
  refine ⟨?_, ?_, ?_, ?_, ?_⟩
  · intro h
    show inches_from_cm ((cfg w).getD .nanV) = .nan
    rw [h]; rfl
  · intro h
    show inches_from_cm ((cfg w).getD .nanV) = .nan
    rw [h]; rfl
  · intro h
    show inches_from_cm ((cfg w).getD .nanV) = .nan
    rw [h]; rfl
  · intro q h
    show inches_from_cm ((cfg w).getD .nanV) = _
    rw [h]; rfl
  · intro h s hs
    rw [evaluate_reasons_def] at hs
    refine not_mentioned_of_reasonFor_none _ _ w ?_ s hs
    apply reasonFor_eq_none
    right
    show ((evaluate_thresholds cfg parsed).thresholds w).isNaN = true
    rw [h]; rfl

/-- Witness for C3: with `h12` absent, `h24` malformed, `h48` at 2.54 cm and
`h6` at 0 cm, the absent and malformed entries give NaN thresholds, the
2.54 cm entry converts to 1 inch, `6h` triggers, and the triggered reason
does not concern `h12`. -/
def cfg3 : Window → Option PyVal := fun w =>
  match w with
  | .h6 => some (.numV 0)
  | .h12 => none
  | .h24 => some .badV
  | .w1 => some .nanV
  | .h48 => some (.numV (254/100))

def parsed3 : Window → Option PFloat := fun _ => some (.val 1)

theorem evaluate_degrades_to_nan_witness :
    cfg3 .h12 = none
    ∧ (evaluate_thresholds cfg3 parsed3).thresholds .h12 = .nan
    ∧ (evaluate_thresholds cfg3 parsed3).thresholds .h24 = .nan
    ∧ (evaluate_thresholds cfg3 parsed3).thresholds .w1 = .nan
    ∧ (evaluate_thresholds cfg3 parsed3).thresholds .h48 = .val ((254/100) / (254/100))
    ∧ "6h SWE change 1.00 in >= 0.00 in" ∈ (evaluate_thresholds cfg3 parsed3).reasons
    ∧ mentionsWindow .h12 "6h SWE change 1.00 in >= 0.00 in" = false := by
  have h := evaluate_degrades_to_nan cfg3 parsed3
  refine ⟨rfl, (h .h12).1 rfl, (h .h24).2.1 rfl, (h .w1).2.2.1 rfl,
    (h .h48).2.2.2.1 (254/100) rfl,
    by with_unfolding_all decide,
    (h .h12).2.2.2.2 ((h .h12).1 rfl) _ (by with_unfolding_all decide)⟩

/-- C10: a parsed-reading mapping with a missing window entry does not make
the evaluator fail: the window's metric is reported as NaN and the window
never appears in `reasons`. -/
theorem evaluate_missing_entry :
    ∀ (cfg : Window → Option PyVal) (parsed : Window → Option PFloat) (w : Window),
      parsed w = none →
        (evaluate_thresholds cfg parsed).metrics w = .nan
        ∧ ∀ s ∈ (evaluate_thresholds cfg parsed).reasons, mentionsWindow w s = false := by
  intro cfg parsed w h
  constructor
  · show (parsed w).getD .nan = .nan
    rw [h]; rfl
  · intro s hs
    rw [evaluate_reasons_def] at hs
    refine not_mentioned_of_reasonFor_none _ _ w ?_ s hs
    apply reasonFor_eq_none
    left
    show ((parsed w).getD .nan).isNaN = true
    rw [h]; rfl

theorem evaluate_missing_entry_witness :
    parsed10 .h6 = none
    ∧ (evaluate_thresholds cfg10 parsed10).metrics .h6 = .nan
    ∧ "12h SWE change 1.00 in >= 0.00 in" ∈ (evaluate_thresholds cfg10 parsed10).reasons
    ∧ mentionsWindow .h6 "12h SWE change 1.00 in >= 0.00 in" = false := by
  have h := evaluate_missing_entry cfg10 parsed10 .h6 rfl
  exact ⟨rfl, h.1, by with_unfolding_all decide, h.2 _ (by with_unfolding_all decide)⟩

/-- C8: a 24h reading of exactly 1.50 with a 3.81 cm threshold: the
conversion `3.81 / 2.54` is exactly 1.50, and the 24h window triggers
inclusively with the documented reason string. -/
theorem evaluate_inclusive_at_threshold :
    inches_from_cm (PyVal.numV (381/100)) = PFloat.val (3/2)
    ∧ (evaluate_thresholds cfg8 parsed8).reasons = ["24h SWE change 1.50 in >= 1.50 in"]
    ∧ (evaluate_thresholds cfg8 parsed8).alert = true := by
  refine ⟨?_, ?_, ?_⟩ <;> with_unfolding_all decide

/-! ## Claims about the table extractor -/

theorem find?_first {α : Type} (p : α → Bool) (l : List α) :
    ∀ (i : Nat) (hi : i < l.length),
      p (l.get ⟨i, hi⟩) = true →
      (∀ j (hj : j < i), p (l.get ⟨j, Nat.lt_trans hj hi⟩) = false) →
      l.find? p = some (l.get ⟨i, hi⟩) := by
  induction l with
  | nil => intro i hi _ _; exact absurd hi (Nat.not_lt_zero i)
  | cons a t ih =>
    intro i hi hp hprev
    cases i with
    | zero =>
      have ha : (a :: t).get ⟨0, hi⟩ = a := rfl
      rw [ha] at hp ⊢
      rw [List.find?_cons, hp]
    | succ n =>
      have h0 : p a = false := by
        have := hprev 0 (Nat.succ_pos n)
        exact this
      have ht : (a :: t).get ⟨n + 1, hi⟩ = t.get ⟨n, Nat.lt_of_succ_lt_succ hi⟩ := rfl
      rw [ht] at hp ⊢
      rw [List.find?_cons, h0]
      exact ih n (Nat.lt_of_succ_lt_succ hi) hp
        (fun j hj => hprev (j + 1) (Nat.succ_lt_succ hj))

/-- C4: the extractor selects the first table, in document order, whose
concatenated cell text (case-insensitively) contains "swe change" together
with "6 hour" or "12 hour"; when no table qualifies — in particular when the
document has no table — it fails with `TableNotFound`. -/
theorem table_selection_spec :
    ∀ tables : List Table,
      ((∀ t ∈ tables, tableMatches t = false) →
        extractFromTables tables = .error .TableNotFound)
      ∧ ∀ i (hi : i < tables.length),
          tableMatches (tables.get ⟨i, hi⟩) = true →
          (∀ j (hj : j < i), tableMatches (tables.get ⟨j, Nat.lt_trans hj hi⟩) = false) →
          extractFromTables tables = extractFromTable (tables.get ⟨i, hi⟩) := by
  intro tables
  constructor
  · intro h
    unfold extractFromTables
    have hn : tables.find? tableMatches = none :=
      List.find?_eq_none.mpr (fun x hx => by simp [h x hx])
    rw [hn]
  · intro i hi hp hprev
    unfold extractFromTables
    rw [find?_first tableMatches tables i hi hp hprev]

def tbl0 : Table := [[cTd "irrelevant"]]
def tbl1 : Table := [[cTh "SWE Change", cTh "6 Hour"],
                     [cTd "1", cTd "2", cTd "3", cTd "4", cTd "5"]]

theorem table_selection_spec_witness :
    tableMatches tbl1 = true
    ∧ tableMatches tbl0 = false
    ∧ extractFromTables [tbl0, tbl1] = extractFromTable tbl1
    ∧ extractFromTables [] = .error .TableNotFound := by
  refine ⟨by with_unfolding_all decide, by with_unfolding_all decide, ?_, ?_⟩
  · exact (table_selection_spec [tbl0, tbl1]).2 1 (by decide)
      (by with_unfolding_all decide)
      (fun j hj => by
        have hj0 : j = 0 := by omega
        subst hj0
        show tableMatches tbl0 = false
        with_unfolding_all decide)
  · exact (table_selection_spec []).1 (fun t ht => absurd ht (List.not_mem_nil t))

/-- C5: within the selected table the first row is skipped (its content is
irrelevant), the first remaining row with a non-empty cell and a digit is
selected, and if no such row exists the extractor fails with `NoDataRow`. -/
theorem data_row_selection_spec :
    (∀ (r0 r0' : Row) (rest : List Row),
      extractFromTable (r0 :: rest) = extractFromTable (r0' :: rest))
    ∧ (∀ t : Table, (∀ r ∈ t.drop 1, rowHasData r = false) →
        extractFromTable t = .error .NoDataRow)
    ∧ ∀ t : Table, ∀ i (hi : i < (t.drop 1).length),
        rowHasData ((t.drop 1).get ⟨i, hi⟩) = true →
        (∀ j (hj : j < i), rowHasData ((t.drop 1).get ⟨j, Nat.lt_trans hj hi⟩) = false) →
        extractFromTable t = extractRow ((t.drop 1).get ⟨i, hi⟩) := by
  refine ⟨?_, ?_, ?_⟩
  · intro r0 r0' rest
    rfl
  · intro t h
    unfold extractFromTable
    by_cases hlen : t.length < 2
    · rw [if_pos hlen]
    · rw [if_neg hlen]
      have hn : (t.drop 1).find? rowHasData = none :=
        List.find?_eq_none.mpr (fun x hx => by simp [h x hx])
      rw [hn]
  · intro t i hi hp hprev
    unfold extractFromTable
    have hlen : ¬ t.length < 2 := by
      have h2 := hi
      rw [List.length_drop] at h2
      omega
    rw [if_neg hlen, find?_first rowHasData (t.drop 1) i hi hp hprev]

def tbl5 : Table := [[cTh "header"], [cTd ""], [cTd "abc"],
                     [cTd "1", cTd "2", cTd "3", cTd "4", cTd "5"]]

theorem data_row_selection_spec_witness :
    rowHasData [cTd ""] = false
    ∧ rowHasData [cTd "abc"] = false
    ∧ rowHasData [cTd "1", cTd "2", cTd "3", cTd "4", cTd "5"] = true
    ∧ extractFromTable tbl5 = extractRow [cTd "1", cTd "2", cTd "3", cTd "4", cTd "5"]
    ∧ extractFromTable [[cTh "header"]] = .error .NoDataRow
    ∧ extractFromTable ([cTh "x"] :: [[cTd "9", cTd "9", cTd "9", cTd "9", cTd "9"]])
        = extractFromTable ([cTd "other"] :: [[cTd "9", cTd "9", cTd "9", cTd "9", cTd "9"]]) := by
  refine ⟨by with_unfolding_all decide, by with_unfolding_all decide,
    by with_unfolding_all decide, ?_, ?_, ?_⟩
  · exact data_row_selection_spec.2.2 tbl5 2 (by decide)
      (by with_unfolding_all decide)
      (fun j hj => by
        have hj01 : j = 0 ∨ j = 1 := by omega
        rcases hj01 with rfl | rfl
        · show rowHasData [cTd ""] = false
          with_unfolding_all decide
        · show rowHasData [cTd "abc"] = false
          with_unfolding_all decide)
  · exact data_row_selection_spec.2.1 [[cTh "header"]]
      (fun r hr => absurd hr (List.not_mem_nil r))
  · exact data_row_selection_spec.1 [cTh "x"] [cTd "other"] _

/-- C6: the selected row fails with `InsufficientCells` iff it exposes fewer
than 5 `td` cells; otherwise the first five cells, stripped of whitespace
and commas, are parsed as floats (an unparseable cell yields NaN for exactly
that field) and mapped left-to-right to the windows 6h, 12h, 24h, 48h, 1w. -/
theorem cell_extraction_spec :
    (∀ r : Row, (extractRow r = .error .InsufficientCells ↔
        (r.filter (fun c => !c.isTh)).length < 5))
    ∧ (∀ r : Row, ∀ h5 : 5 ≤ (r.filter (fun c => !c.isTh)).length,
        extractRow r = .ok {
          swe_change_6h_in := to_float ((r.filter (fun c => !c.isTh)).get ⟨0, by omega⟩)
          swe_change_12h_in := to_float ((r.filter (fun c => !c.isTh)).get ⟨1, by omega⟩)
          swe_change_24h_in := to_float ((r.filter (fun c => !c.isTh)).get ⟨2, by omega⟩)
          swe_change_48h_in := to_float ((r.filter (fun c => !c.isTh)).get ⟨3, by omega⟩)
          swe_change_1w_in := to_float ((r.filter (fun c => !c.isTh)).get ⟨4, by omega⟩) })
    ∧ (∀ c : Cell, pyFloat (removeCommas c.text.trim) = none → to_float c = .nan)
    ∧ (∀ c : Cell, ∀ q : ℚ, pyFloat (removeCommas c.text.trim) = some q →
        to_float c = .val q) := by
  refine ⟨?_, ?_, ?_, ?_⟩
  · intro r
    by_cases h : (r.filter (fun c => !c.isTh)).length < 5
    · unfold extractRow
      rw [dif_pos h]
      simp [h]
    · unfold extractRow
      rw [dif_neg h]
      simp [h]
  · intro r h5
    unfold extractRow
    rw [dif_neg (by omega)]
  · intro c h
    unfold to_float
    rw [h]
  · intro c q h
    unfold to_float
    rw [h]

def row6 : Row := [cTd " 1.5 ", cTd "abc", cTd "2", cTd "3,0", cTd "4", cTd "x5"]

theorem cell_extraction_spec_witness :
    5 ≤ (row6.filter (fun c => !c.isTh)).length
    ∧ extractRow row6 = .ok ⟨.val (3/2), .nan, .val 2, .val 30, .val 4⟩
    ∧ pyFloat (removeCommas (Cell.text (cTd "abc")).trim) = none
    ∧ to_float (cTd "abc") = .nan
    ∧ extractRow [cTd "1", cTd "2", cTd "3"] = .error .InsufficientCells := by
  refine ⟨by with_unfolding_all decide, ?_, by with_unfolding_all decide, ?_, ?_⟩
  · exact (cell_extraction_spec.2.1 row6 (by with_unfolding_all decide)).trans
      (by with_unfolding_all decide)
  · exact cell_extraction_spec.2.2.1 (cTd "abc") (by with_unfolding_all decide)
  · exact (cell_extraction_spec.1 [cTd "1", cTd "2", cTd "3"]).mpr
      (by with_unfolding_all decide)

theorem extractFromTables_ne_empty (tables : List Table) :
    extractFromTables tables ≠ .error .EmptyInput := by
  unfold extractFromTables extractFromTable extractRow
  split
  · simp
  · split
    · simp
    · split
      · simp
      · dsimp only
        split
        · simp
        · simp

/-- C7: on every input the extractor either succeeds with a reading that has
exactly five fields, or fails with exactly one of the four documented error
kinds; it fails with `EmptyInput` exactly on empty or non-string input. -/
theorem extract_total_spec :
    ∀ (input : RawInput) (doc : List Table),
      ((parse_snow_html input doc = .error .EmptyInput) ↔
        (input = .nonString ∨ input = .text ""))
      ∧ ((∃ r, parse_snow_html input doc = .ok r)
         ∨ parse_snow_html input doc = .error .EmptyInput
         ∨ parse_snow_html input doc = .error .TableNotFound
         ∨ parse_snow_html input doc = .error .NoDataRow
         ∨ parse_snow_html input doc = .error .InsufficientCells)
      ∧ (∀ r, parse_snow_html input doc = .ok r →
          r = ⟨r.swe_change_6h_in, r.swe_change_12h_in, r.swe_change_24h_in,
               r.swe_change_48h_in, r.swe_change_1w_in⟩) := by
  intro input doc
  refine ⟨?_, ?_, ?_⟩
  · cases input with
    | nonString => simp [parse_snow_html]
    | text s =>
      by_cases hs : s = ""
      · subst hs
        simp [parse_snow_html]
      · show (if s = "" then Except.error ParseErr.EmptyInput else extractFromTables doc)
            = .error .EmptyInput ↔ _
        rw [if_neg hs]
        constructor
        · intro h
          exact absurd h (extractFromTables_ne_empty doc)
        · rintro (h | h)
          · cases h
          · injection h with h2
            exact absurd h2 hs
  · rcases hres : parse_snow_html input doc with e | r
    case ok => exact Or.inl ⟨r, rfl⟩
    cases e with
      | EmptyInput => exact Or.inr (Or.inl rfl)
      | TableNotFound => exact Or.inr (Or.inr (Or.inl rfl))
      | NoDataRow => exact Or.inr (Or.inr (Or.inr (Or.inl rfl)))
      | InsufficientCells => exact Or.inr (Or.inr (Or.inr (Or.inr rfl)))
  · intro r _
    rfl

def doc7 : List Table := [[[cTh "SWE Change", cTh "6 Hour"],
                           [cTd "1", cTd "2", cTd "3", cTd "4", cTd "5"]]]

theorem extract_total_spec_witness :
    parse_snow_html (.text "<html>") doc7 = .ok ⟨.val 1, .val 2, .val 3, .val 4, .val 5⟩
    ∧ parse_snow_html .nonString doc7 = .error .EmptyInput
    ∧ parse_snow_html (.text "") doc7 = .error .EmptyInput := by
  refine ⟨by with_unfolding_all decide, ?_, ?_⟩
  · exact (extract_total_spec .nonString doc7).1.mpr (Or.inl rfl)
  · exact (extract_total_spec (.text "") doc7).1.mpr (Or.inr rfl)
